import Mathlib

/-!
Shallow embedding of `pkg/gitops/flux/flux.go` (eks-anywhere).

The Go code orchestrates external collaborators (a local git client, a remote
repository provider, a flux toolkit client, and a file writer).  We model the
collaborators by a deterministic environment `Env`: each collaborator operation
has a fixed result for the duration of one top-level call (the same operation
always answers the same way, which is how the claim scenarios are phrased).
Every embedded function returns the sequence of collaborator calls it made
(a `List Event` trace) together with an optional error, mirroring the Go
`error` return value.  `retrier.NewWithMaxRetries(maxRetries, backOffPeriod)`
is modelled by `retryCall`: one call when the operation succeeds, `maxRetries`
calls followed by the error when it fails.
-/

namespace EksaFlux

/-- Go `maxRetries = 5` from flux.go. -/
def maxRetries : Nat := 5

def eksaSystemDirName : String := "eksa-system"

def kustomizeFileName : String := "kustomization.yaml"

def clusterConfigFileName : String := "eksa-cluster.yaml"

def fluxSyncFileName : String := "gotk-sync.yaml"

def fluxPatchFileName : String := "gotk-patches.yaml"

def initialClusterconfigCommitMessage : String :=
  "Initial commit of cluster configuration; generated by EKS-A CLI"

def updateClusterconfigCommitMessage : String :=
  "Update commit of cluster configuration; generated by EKS-A CLI"

def deleteClusterconfigCommitMessage : String :=
  "Delete commit of cluster configuration; generated by EKS-A CLI"

/-- Go `path.Join` for already-clean components: empty elements are dropped
and the rest joined with a slash (flux.go only ever joins clean paths, so the
`path.Clean` pass is the identity on every argument that occurs). -/
def pathJoin (elems : List String) : String :=
  String.intercalate "/" (elems.filter (fun s => s ≠ ""))

/-- Go `path.Dir` for clean paths: everything before the final slash;
"." when there is no slash; "/" when the remainder is empty. -/
def pathDir (p : String) : String :=
  match (p.splitOn "/").dropLast with
  | [] => "."
  | parts =>
    let d := String.intercalate "/" parts
    if d = "" then "/" else d

/-- Go `path.Base`: the last non-empty slash-separated element; "." for the
empty path, "/" when the path is all slashes. -/
def pathBase (p : String) : String :=
  if p = "" then "."
  else
    match ((p.splitOn "/").filter (fun s => s ≠ "")).getLast? with
    | some s => s
    | none => "/"

/-- Go `filepath.Ext`: the suffix starting at the final dot of the final
path element, empty when that element has no dot. -/
def filepathExt (p : String) : String :=
  let base := (p.splitOn "/").getLastD ""
  let parts := base.splitOn "."
  if parts.length ≤ 1 then "" else "." ++ parts.getLastD ""

/-- Go `strings.TrimSuffix`. -/
def trimSuffix (s suf : String) : String :=
  if s.endsWith suf then s.dropRight suf.length else s

/-- Errors, mirroring the Go error values as flux.go builds and inspects them.
`errorfW` is `fmt.Errorf("...: %w", err)` (unwrappable); `errorfV` is
`fmt.Errorf("...: %v", err)` (message formatting only — `errors.As` cannot see
through it); `configVCFailed` is `ConfigVersionControlFailedError` (which
defines no `Unwrap`); `repoEmpty` is `git.RepositoryIsEmptyError`. -/
inductive Err where
  | repoEmpty : Err
  | generic : String → Err
  | errorfW : String → Err → Err
  | errorfV : String → Err → Err
  | configVCFailed : Err → Err
  deriving DecidableEq, Repr

/-- Go `errors.As(err, &repoEmptyErr)`: the error is, or `%w`-wraps,
a `git.RepositoryIsEmptyError`. -/
def Err.isRepoEmpty : Err → Bool
  | .repoEmpty => true
  | .errorfW _ e => e.isRepoEmpty
  | _ => false

/-- Go `git.CreateRepoOpts`. -/
structure CreateRepoOpts where
  Name : String
  Owner : String
  Description : String
  Personal : Bool
  Privacy : Bool
  deriving DecidableEq, Repr

/-- One collaborator call, in the order flux.go makes them. -/
inductive Event where
  | getRepo : Event
  | createRepo : CreateRepoOpts → Event
  | pathExistsQ : String → String → String → String → Event
  | cloneRepo : Event
  | initRepo : Event
  | branch : String → Event
  | add : String → Event
  | remove : String → Event
  | commit : String → Event
  | push : Event
  | pull : String → Event
  | bootstrapGithub : Event
  | bootstrapGit : Event
  | uninstall : Event
  | suspendKustomization : Event
  | resumeKustomization : Event
  | forceReconcile : String → Event
  | writeFile : String → String → Event
  deriving DecidableEq, Repr

/-- Go `FluxConfigSpec.Github` section. -/
structure GithubProviderConfig where
  Repository : String
  Owner : String
  Personal : Bool
  deriving DecidableEq, Repr

/-- Go `FluxConfigSpec.Git` section. -/
structure GitProviderConfig where
  RepositoryUrl : String
  deriving DecidableEq, Repr

/-- The fields of `v1alpha1.FluxConfig.Spec` that flux.go reads. -/
structure FluxConfigSpec where
  Github : Option GithubProviderConfig
  Git : Option GitProviderConfig
  Branch : String
  ClusterConfigPath : String
  SystemNamespace : String
  deriving DecidableEq, Repr

/-- The parts of `cluster.Spec` that flux.go reads: the flux configuration,
the cluster name (`Cluster.GetName()`), and whether the cluster is
self-managed (`Cluster.IsSelfManaged()`; `IsManaged()` is its negation). -/
structure ClusterSpecT where
  fluxConfig : FluxConfigSpec
  clusterName : String
  selfManaged : Bool
  deriving DecidableEq, Repr

/-- Go `fluxForCluster`: the per-operation composite context.  The
datacenter/machine configs are collaborator payloads; only their presence
(nil-ness) steers control flow, so we keep booleans. -/
structure FluxForCluster where
  clusterSpec : ClusterSpecT
  hasDatacenterConfig : Bool
  hasMachineConfigs : Bool
  deriving DecidableEq, Repr

/-- Go `gitFactory.GitTools` as flux.go uses it: the writer root directory
(`Writer.Dir()`) and whether a remote provider is configured
(`Provider != nil`). -/
structure GitTools where
  writerDir : String
  hasProvider : Bool
  deriving DecidableEq, Repr

/-- Go `Flux` struct; `gitTools == nil` is `shouldSkipFlux`. -/
structure Flux where
  gitTools : Option GitTools

/-- Deterministic results of every collaborator operation, plus the local
filesystem view (`validations.FileExists`).  `none` / `.ok` means the call
succeeds; `some e` / `.error e` means every attempt fails with `e`. -/
structure Env where
  getRepoRes : Except Err (Option Unit)
  pathExistsRes : Except Err Bool
  createRepoRes : Option Err
  cloneRes : Option Err
  branchRes : Option Err
  initRes : Option Err
  addRes : Option Err
  removeRes : Option Err
  commitRes : Option Err
  pushRes : Option Err
  pullRes : Option Err
  bootstrapGithubRes : Option Err
  bootstrapGitRes : Option Err
  uninstallRes : Option Err
  suspendRes : Option Err
  resumeRes : Option Err
  forceReconcileRes : Option Err
  withDirRes : Option Err
  marshalRes : Option Err
  writeRes : Option Err
  fileExists : String → Bool

/-- `retrier.Retry` around one collaborator call: one call if it succeeds,
`maxRetries` identical failing calls then the error otherwise. -/
def retryCall (e : Event) (res : Option Err) : List Event × Option Err :=
  match res with
  | none => ([e], none)
  | some err => (List.replicate maxRetries e, some err)

/-- `retrier.Retry` around `Provider.GetRepo` (which returns a value and an
error). -/
def retryGetRepo (env : Env) : List Event × Except Err (Option Unit) :=
  match env.getRepoRes with
  | .ok v => ([Event.getRepo], .ok v)
  | .error e => (List.replicate maxRetries Event.getRepo, .error e)

def FluxForCluster.namespaceName (fc : FluxForCluster) : String :=
  fc.clusterSpec.fluxConfig.SystemNamespace

def FluxForCluster.repository (fc : FluxForCluster) : String :=
  match fc.clusterSpec.fluxConfig.Github with
  | some g => g.Repository
  | none =>
    match fc.clusterSpec.fluxConfig.Git with
    | some g => pathBase (trimSuffix g.RepositoryUrl (filepathExt g.RepositoryUrl))
    | none => ""

def FluxForCluster.owner (fc : FluxForCluster) : String :=
  match fc.clusterSpec.fluxConfig.Github with
  | some g => g.Owner
  | none => ""

def FluxForCluster.branch (fc : FluxForCluster) : String :=
  fc.clusterSpec.fluxConfig.Branch

def FluxForCluster.personal (fc : FluxForCluster) : Bool :=
  match fc.clusterSpec.fluxConfig.Github with
  | some g => g.Personal
  | none => false

def FluxForCluster.path (fc : FluxForCluster) : String :=
  fc.clusterSpec.fluxConfig.ClusterConfigPath

def FluxForCluster.eksaSystemDir (fc : FluxForCluster) : String :=
  pathJoin [fc.path, fc.clusterSpec.clusterName, eksaSystemDirName]

def FluxForCluster.fluxSystemDir (fc : FluxForCluster) : String :=
  pathJoin [fc.path, fc.namespaceName]

/-- Go `fluxForCluster.clone`: retried `Client.Clone`, then a single
(unretried) `Client.Branch` to the configured branch. -/
def cloneOp (env : Env) (fc : FluxForCluster) : List Event × Option Err :=
  let c := retryCall Event.cloneRepo env.cloneRes
  match c.2 with
  | some e => (c.1, some e)
  | none =>
    (c.1 ++ [Event.branch fc.branch], env.branchRes)

/-- Go `fluxForCluster.initializeLocalRepository`: `Init`, a seed
`Commit("initializing repository")`, then `Branch` — none of them retried. -/
def initializeLocalRepository (env : Env) (fc : FluxForCluster) :
    List Event × Option Err :=
  match env.initRes with
  | some e => ([Event.initRepo], some (.errorfW "could not initialize repo" e))
  | none =>
    match env.commitRes with
    | some e =>
      ([Event.initRepo, Event.commit "initializing repository"],
        some (.errorfV "initializing repository" e))
    | none =>
      ([Event.initRepo, Event.commit "initializing repository",
          Event.branch fc.branch],
        (env.branchRes).map (fun e => .errorfV "creating branch" e))

/-- Go `fluxForCluster.createRemoteRepository`: retried `Provider.CreateRepo`
with name/owner/description/personal and `Privacy: true`. -/
def createRemoteRepository (env : Env) (fc : FluxForCluster) :
    List Event × Option Err :=
  let opts : CreateRepoOpts :=
    { Name := fc.repository, Owner := fc.owner,
      Description := "EKS-A cluster configuration repository",
      Personal := fc.personal, Privacy := true }
  let c := retryCall (Event.createRepo opts) env.createRepoRes
  (c.1, c.2.map (fun e => .errorfW "could not create repo" e))

/-- Go `fluxForCluster.setupProviderRepository`: describe the remote (retried);
clone when it exists; on a `RepositoryIsEmptyError` clone failure fall back to
local initialization; when it does not exist, create it remotely then
initialize locally. -/
def setupProviderRepository (env : Env) (fc : FluxForCluster) :
    List Event × Option Err :=
  let g := retryGetRepo env
  match g.2 with
  | .error e => (g.1, some (.errorfW "failed to describe repo" e))
  | .ok rOpt =>
    match rOpt with
    | some _ =>
      let c := cloneOp env fc
      match c.2 with
      | some e =>
        if e.isRepoEmpty then
          let i := initializeLocalRepository env fc
          (g.1 ++ c.1 ++ i.1, i.2.map .configVCFailed)
        else
          (g.1 ++ c.1, some (.configVCFailed e))
      | none => (g.1 ++ c.1, none)
    | none =>
      let cr := createRemoteRepository env fc
      match cr.2 with
      | some e => (g.1 ++ cr.1, some (.configVCFailed e))
      | none =>
        let i := initializeLocalRepository env fc
        (g.1 ++ cr.1 ++ i.1, i.2.map .configVCFailed)

/-- Go `Flux.pushToRemoteRepo`: a single unretried `Commit(msg)` (immediate
`ConfigVersionControlFailedError` on failure), then a retried `Push`
(`ConfigVersionControlFailedError` after exhaustion). -/
def pushToRemoteRepo (env : Env) (p msg : String) : List Event × Option Err :=
  match env.commitRes with
  | some e =>
    ([Event.commit msg],
      some (.configVCFailed (.errorfV ("committing " ++ p ++ " to git") e)))
  | none =>
    let c := retryCall Event.push env.pushRes
    (Event.commit msg :: c.1,
      c.2.map (fun e =>
        .configVCFailed (.errorfV ("pushing " ++ p ++ " to git") e)))

/-- Go `fluxForCluster.writeEksaSystemFiles`: nothing to do when both config
payloads are nil; otherwise create the eksa-system directory writer, write the
cluster config manifest, then the eksa kustomization file. -/
def writeEksaSystemFiles (env : Env) (fc : FluxForCluster) :
    List Event × Option Err :=
  if !fc.hasDatacenterConfig && !fc.hasMachineConfigs then ([], none)
  else
    match env.withDirRes with
    | some e =>
      ([], some (.errorfV ("creating " ++ fc.eksaSystemDir ++ " directory") e))
    | none =>
      match env.marshalRes with
      | some e => ([], some e)
      | none =>
        match env.writeRes with
        | some e =>
          ([Event.writeFile fc.eksaSystemDir clusterConfigFileName],
            some (.errorfV "writing eks-a cluster config file" e))
        | none =>
          ([Event.writeFile fc.eksaSystemDir clusterConfigFileName,
              Event.writeFile fc.eksaSystemDir kustomizeFileName], none)

/-- Go `fluxForCluster.writeFluxSystemFiles`: create the flux-system directory
writer, then write the kustomization, sync and patch manifests in order. -/
def writeFluxSystemFiles (env : Env) (fc : FluxForCluster) :
    List Event × Option Err :=
  match env.withDirRes with
  | some e =>
    ([], some (.errorfV ("creating " ++ fc.fluxSystemDir ++ " directory") e))
  | none =>
    match env.writeRes with
    | some e =>
      ([Event.writeFile fc.fluxSystemDir kustomizeFileName],
        some (.errorfV "creating flux-system kustomization manifest file" e))
    | none =>
      ([Event.writeFile fc.fluxSystemDir kustomizeFileName,
          Event.writeFile fc.fluxSystemDir fluxSyncFileName,
          Event.writeFile fc.fluxSystemDir fluxPatchFileName], none)

/-- Go `fluxForCluster.validateLocalConfigPathDoesNotExist`: only a
self-managed cluster checks (and rejects) an existing local config path. -/
def validateLocalConfigPathDoesNotExist (env : Env) (gt : GitTools)
    (fc : FluxForCluster) : Option Err :=
  if fc.clusterSpec.selfManaged then
    let p := pathJoin [gt.writerDir, fc.path]
    if env.fileExists p then
      some (.generic ("a cluster configuration file already exists at path " ++ p))
    else none
  else none

/-- Go `fluxForCluster.validateRemoteConfigPathDoesNotExist`: for a
self-managed cluster with a configured provider, ask the provider whether the
flux path already exists remotely. -/
def validateRemoteConfigPathDoesNotExist (env : Env) (gt : GitTools)
    (fc : FluxForCluster) : List Event × Option Err :=
  if fc.clusterSpec.selfManaged then
    if gt.hasProvider then
      let ev := Event.pathExistsQ fc.owner fc.repository fc.branch fc.path
      match env.pathExistsRes with
      | .error e =>
        ([ev], some (.errorfV "failed validating remote flux config path" e))
      | .ok true =>
        ([ev], some (.generic ("flux path " ++ fc.path ++
          " already exists in remote repository")))
      | .ok false => ([ev], none)
    else ([], none)
  else ([], none)

/-- Go `fluxForCluster.commitFluxAndClusterConfigToGit`: validate the local
config path, write the eksa-system files, write the flux-system files for
self-managed clusters only, `Add` the directory of the cluster config path,
then commit and push with the fixed initial message. -/
def commitFluxAndClusterConfigToGit (env : Env) (gt : GitTools)
    (fc : FluxForCluster) : List Event × Option Err :=
  match validateLocalConfigPathDoesNotExist env gt fc with
  | some e => ([], some (.configVCFailed e))
  | none =>
    let w1 := writeEksaSystemFiles env fc
    match w1.2 with
    | some e => (w1.1, some (.configVCFailed e))
    | none =>
      let w2 :=
        if fc.clusterSpec.selfManaged then writeFluxSystemFiles env fc
        else ([], none)
      match w2.2 with
      | some e => (w1.1 ++ w2.1, some (.configVCFailed e))
      | none =>
        let p := pathDir fc.clusterSpec.fluxConfig.ClusterConfigPath
        match env.addRes with
        | some e =>
          (w1.1 ++ w2.1 ++ [Event.add p],
            some (.configVCFailed (.errorfV ("adding " ++ p ++ " to git") e)))
        | none =>
          let pr := pushToRemoteRepo env p initialClusterconfigCommitMessage
          (w1.1 ++ w2.1 ++ [Event.add p] ++ pr.1, pr.2)

/-- Go `fluxForCluster.syncGitRepo`: full clone+branch when the working copy
has no `.git` metadata, otherwise only a local branch switch. -/
def syncGitRepo (env : Env) (gt : GitTools) (fc : FluxForCluster) :
    List Event × Option Err :=
  if !env.fileExists (pathJoin [gt.writerDir, ".git"]) then
    let c := cloneOp env fc
    (c.1, c.2.map (fun e => .errorfV "failed cloning git repo" e))
  else
    ([Event.branch fc.branch],
      (env.branchRes).map (fun e =>
        .errorfV ("failed to switch to git branch " ++ fc.branch) e))

/-- Go `Flux.uninstallGitOpsToolkits`: retried `flux.Uninstall`. -/
def uninstallGitOpsToolkits (env : Env) : List Event × Option Err :=
  retryCall Event.uninstall env.uninstallRes

/-- Go `Flux.installGitOpsGithub`: provision the provider repository, commit
the configuration, and — unless the cluster is an existing management
cluster — bootstrap GitHub with retry, rolling back via a best-effort
uninstall whose own failure is only logged. -/
def installGitOpsGithub (env : Env) (gt : GitTools) (existingManagement : Bool)
    (fc : FluxForCluster) : List Event × Option Err :=
  let s := setupProviderRepository env fc
  match s.2 with
  | some e => (s.1, some e)
  | none =>
    let c := commitFluxAndClusterConfigToGit env gt fc
    match c.2 with
    | some e => (s.1 ++ c.1, some e)
    | none =>
      if existingManagement then (s.1 ++ c.1, none)
      else
        let b := retryCall Event.bootstrapGithub env.bootstrapGithubRes
        match b.2 with
        | some e =>
          let u := uninstallGitOpsToolkits env
          (s.1 ++ c.1 ++ b.1 ++ u.1, some e)
        | none => (s.1 ++ c.1 ++ b.1, none)

/-- Go `Flux.installGitOpsGenericGit`: plain clone+branch, commit the
configuration, and — unless the cluster is an existing management cluster —
bootstrap generic git with retry, with the same best-effort rollback. -/
def installGitOpsGenericGit (env : Env) (gt : GitTools)
    (existingManagement : Bool) (fc : FluxForCluster) :
    List Event × Option Err :=
  let cl := cloneOp env fc
  match cl.2 with
  | some e => (cl.1, some e)
  | none =>
    let c := commitFluxAndClusterConfigToGit env gt fc
    match c.2 with
    | some e => (cl.1 ++ c.1, some e)
    | none =>
      if existingManagement then (cl.1 ++ c.1, none)
      else
        let b := retryCall Event.bootstrapGit env.bootstrapGitRes
        match b.2 with
        | some e =>
          let u := uninstallGitOpsToolkits env
          (cl.1 ++ c.1 ++ b.1 ++ u.1, some e)
        | none => (cl.1 ++ c.1 ++ b.1, none)

/-- Go `Flux.InstallGitOps`: skip when unconfigured; run the GitHub path when
a Github section is present, then the generic-git path when a Git section is
present (independent conditionals); finish with an advisory retried `Pull`
whose failure is logged only, so the success paths always return nil. -/
def installGitOps (env : Env) (f : Flux) (existingManagement : Bool)
    (fc : FluxForCluster) : List Event × Option Err :=
  match f.gitTools with
  | none => ([], none)
  | some gt =>
    let gh :=
      match fc.clusterSpec.fluxConfig.Github with
      | some _ => installGitOpsGithub env gt existingManagement fc
      | none => ([], none)
    match gh.2 with
    | some e => (gh.1, some (.errorfV "installing GitHub gitops" e))
    | none =>
      let gg :=
        match fc.clusterSpec.fluxConfig.Git with
        | some _ => installGitOpsGenericGit env gt existingManagement fc
        | none => ([], none)
      match gg.2 with
      | some e => (gh.1 ++ gg.1, some (.errorfV "installing generic git gitops" e))
      | none =>
        let pl := retryCall (Event.pull fc.branch) env.pullRes
        (gh.1 ++ gg.1 ++ pl.1, none)

/-- Go `Flux.UpdateGitEksaSpec`: skip when unconfigured; sync the local repo,
regenerate the eksa-system files, `Add` the eksa-system directory, then commit
and push with the fixed update message. -/
def updateGitEksaSpec (env : Env) (f : Flux) (fc : FluxForCluster) :
    List Event × Option Err :=
  match f.gitTools with
  | none => ([], none)
  | some gt =>
    let s := syncGitRepo env gt fc
    match s.2 with
    | some e => (s.1, some e)
    | none =>
      let w := writeEksaSystemFiles env fc
      match w.2 with
      | some e => (s.1 ++ w.1, some e)
      | none =>
        let p := fc.eksaSystemDir
        match env.addRes with
        | some e =>
          (s.1 ++ w.1 ++ [Event.add p],
            some (.configVCFailed (.errorfV ("adding " ++ p ++ " to git") e)))
        | none =>
          let pr := pushToRemoteRepo env p updateClusterconfigCommitMessage
          (s.1 ++ w.1 ++ [Event.add p] ++ pr.1, pr.2)

/-- Go `Flux.CleanupGitRepo`: skip when unconfigured; sync the local repo;
remove the eksa-system directory for a managed cluster or the whole config
path for a self-managed one — but only when that path exists locally — then
commit and push with the fixed delete message. -/
def cleanupGitRepo (env : Env) (f : Flux) (fc : FluxForCluster) :
    List Event × Option Err :=
  match f.gitTools with
  | none => ([], none)
  | some gt =>
    let s := syncGitRepo env gt fc
    match s.2 with
    | some e => (s.1, some e)
    | none =>
      let p := if !fc.clusterSpec.selfManaged then fc.eksaSystemDir else fc.path
      if !env.fileExists (pathJoin [gt.writerDir, p]) then (s.1, none)
      else
        match env.removeRes with
        | some e =>
          (s.1 ++ [Event.remove p],
            some (.configVCFailed (.errorfV ("removing " ++ p ++ " in git") e)))
        | none =>
          let pr := pushToRemoteRepo env p deleteClusterconfigCommitMessage
          (s.1 ++ [Event.remove p] ++ pr.1, pr.2)

/-- Go `Flux.PauseGitOpsKustomization`: skip when unconfigured; otherwise one
retried `SuspendKustomization` call. -/
def pauseGitOpsKustomization (env : Env) (f : Flux) (fc : FluxForCluster) :
    List Event × Option Err :=
  match f.gitTools with
  | none => ([], none)
  | some _ => retryCall Event.suspendKustomization env.suspendRes

/-- Go `Flux.ResumeGitOpsKustomization`: skip when unconfigured; otherwise one
retried `ResumeKustomization` call. -/
def resumeGitOpsKustomization (env : Env) (f : Flux) (fc : FluxForCluster) :
    List Event × Option Err :=
  match f.gitTools with
  | none => ([], none)
  | some _ => retryCall Event.resumeKustomization env.resumeRes

/-- Go `Flux.ForceReconcileGitRepo`: skip when unconfigured; otherwise a
single unretried `ForceReconcileGitRepo` call for the system namespace. -/
def forceReconcileGitRepo (env : Env) (f : Flux) (fc : FluxForCluster) :
    List Event × Option Err :=
  match f.gitTools with
  | none => ([], none)
  | some _ =>
    ([Event.forceReconcile fc.namespaceName], env.forceReconcileRes)

/-- Go `Flux.Validations`: nil when unconfigured; otherwise a single named
"Flux path" check.  We model the returned closure already evaluated, pairing
the validation name with the error its evaluation yields. -/
def validationsFlux (env : Env) (f : Flux) (fc : FluxForCluster) :
    List Event × List (String × Option Err) :=
  match f.gitTools with
  | none => ([], [])
  | some gt =>
    let v := validateRemoteConfigPathDoesNotExist env gt fc
    (v.1, [("Flux path", v.2)])

/-- Does an event record a manifest-file write? -/
def Event.isWrite : Event → Bool
  | .writeFile _ _ => true
  | _ => false

/-- A sample environment in which every collaborator call succeeds, the remote
repository exists, and no local path exists. -/
def envAllOk : Env :=
  { getRepoRes := .ok (some ()), pathExistsRes := .ok false,
    createRepoRes := none, cloneRes := none, branchRes := none,
    initRes := none, addRes := none, removeRes := none, commitRes := none,
    pushRes := none, pullRes := none, bootstrapGithubRes := none,
    bootstrapGitRes := none, uninstallRes := none, suspendRes := none,
    resumeRes := none, forceReconcileRes := none, withDirRes := none,
    marshalRes := none, writeRes := none,
    fileExists := fun _ => false }

def sampleGithub : GithubProviderConfig :=
  { Repository := "fluxy", Owner := "mFowler", Personal := true }

def sampleSpec : ClusterSpecT :=
  { fluxConfig :=
      { Github := some sampleGithub, Git := none, Branch := "testBranch",
        ClusterConfigPath := "clusters/management-cluster",
        SystemNamespace := "flux-system" },
    clusterName := "management-cluster", selfManaged := true }

def sampleFc : FluxForCluster :=
  { clusterSpec := sampleSpec, hasDatacenterConfig := true,
    hasMachineConfigs := true }

def sampleGt : GitTools := { writerDir := "repo", hasProvider := true }

/-- `sampleSpec` with a managed (workload) cluster. -/
def sampleSpecManaged : ClusterSpecT := { sampleSpec with selfManaged := false }

def sampleFcManaged : FluxForCluster :=
  { sampleFc with clusterSpec := sampleSpecManaged }

/-- C1: when the remote descriptor lookup reports no repository and no error
and the create/init/seed-commit calls succeed, `setupProviderRepository` makes
exactly one `CreateRepo` call — with the repository name, owner, the fixed
description, the personal flag, and `Privacy := true` — followed by the
local-initialize sequence `Init`, `Commit "initializing repository"`,
`Branch` to the target branch; no `Clone` call occurs on this path. -/
theorem setupProviderRepository_notFound_creates_then_inits
    (env : Env) (fc : FluxForCluster)
    (hg : env.getRepoRes = .ok none)
    (hc : env.createRepoRes = none)
    (hi : env.initRes = none)
    (hcm : env.commitRes = none) :
    setupProviderRepository env fc =
      ([Event.getRepo,
        Event.createRepo
          { Name := fc.repository, Owner := fc.owner,
            Description := "EKS-A cluster configuration repository",
            Personal := fc.personal, Privacy := true },
        Event.initRepo, Event.commit "initializing repository",
        Event.branch fc.branch],
        (env.branchRes).map
          (fun e => Err.configVCFailed (.errorfV "creating branch" e)))
      ∧ Event.cloneRepo ∉ (setupProviderRepository env fc).1 := by
  constructor
  · simp [setupProviderRepository, retryGetRepo, createRemoteRepository,
      initializeLocalRepository, retryCall, hg, hc, hi, hcm]
    cases env.branchRes <;> rfl
  · simp [setupProviderRepository, retryGetRepo, createRemoteRepository,
      initializeLocalRepository, retryCall, hg, hc, hi, hcm]

theorem setupProviderRepository_notFound_witness :
    setupProviderRepository { envAllOk with getRepoRes := .ok none } sampleFc =
      ([Event.getRepo,
        Event.createRepo
          { Name := "fluxy", Owner := "mFowler",
            Description := "EKS-A cluster configuration repository",
            Personal := true, Privacy := true },
        Event.initRepo, Event.commit "initializing repository",
        Event.branch "testBranch"], none) := by
  have h := setupProviderRepository_notFound_creates_then_inits
    { envAllOk with getRepoRes := .ok none } sampleFc rfl rfl rfl rfl
  simpa [sampleFc, sampleSpec, sampleGithub, envAllOk, FluxForCluster.repository,
    FluxForCluster.owner, FluxForCluster.personal, FluxForCluster.branch] using h.1

/-- C2: when the remote repository exists, a clone failure that is (or wraps)
`RepositoryIsEmptyError` is not propagated: `setupProviderRepository` falls
back to `Init`, the seed commit "initializing repository", and `Branch` to the
target branch, and returns success; a clone failure that is not the
repository-empty condition is returned wrapped as a
`ConfigVersionControlFailedError`. -/
theorem setupProviderRepository_emptyRepo_fallback
    (env : Env) (fc : FluxForCluster)
    (hg : env.getRepoRes = .ok (some ()))
    (hi : env.initRes = none)
    (hcm : env.commitRes = none)
    (hb : env.branchRes = none) :
    (∀ er : Err, er.isRepoEmpty = true → env.cloneRes = some er →
      setupProviderRepository env fc =
        (Event.getRepo :: (List.replicate maxRetries Event.cloneRepo ++
          [Event.initRepo, Event.commit "initializing repository",
            Event.branch fc.branch]), none))
    ∧ (∀ er : Err, er.isRepoEmpty = false → env.cloneRes = some er →
      (setupProviderRepository env fc).2 = some (.configVCFailed er)) := by
  constructor
  · intro er her hcl
    simp [setupProviderRepository, retryGetRepo, cloneOp, retryCall,
      initializeLocalRepository, hg, hi, hcm, hb, hcl, her]
  · intro er her hcl
    simp [setupProviderRepository, retryGetRepo, cloneOp, retryCall,
      initializeLocalRepository, hg, hi, hcm, hb, hcl, her]

theorem setupProviderRepository_emptyRepo_witness :
    setupProviderRepository { envAllOk with cloneRes := some Err.repoEmpty }
        sampleFc =
      (Event.getRepo :: (List.replicate maxRetries Event.cloneRepo ++
        [Event.initRepo, Event.commit "initializing repository",
          Event.branch "testBranch"]), none) := by
  have h := (setupProviderRepository_emptyRepo_fallback
    { envAllOk with cloneRes := some Err.repoEmpty } sampleFc
    rfl rfl rfl rfl).1 Err.repoEmpty rfl rfl
  simpa [sampleFc, sampleSpec, FluxForCluster.branch] using h

/-- C4: `pushToRemoteRepo` first commits; a commit failure yields an immediate
`ConfigVersionControlFailedError` with exactly one commit call and no push
attempt; on commit success a push failure is retried `maxRetries` times and
its exhaustion yields a `ConfigVersionControlFailedError` distinguished only
by the wrapped cause. -/
theorem pushToRemoteRepo_commit_then_retry_push
    (env : Env) (p msg : String) :
    (∀ e : Err, env.commitRes = some e →
      pushToRemoteRepo env p msg =
        ([Event.commit msg],
          some (.configVCFailed
            (.errorfV ("committing " ++ p ++ " to git") e))))
    ∧ (env.commitRes = none → ∀ e : Err, env.pushRes = some e →
      pushToRemoteRepo env p msg =
        (Event.commit msg :: List.replicate maxRetries Event.push,
          some (.configVCFailed
            (.errorfV ("pushing " ++ p ++ " to git") e)))) := by
  constructor
  · intro e hc
    simp [pushToRemoteRepo, retryCall, hc]
  · intro hc e hp
    simp [pushToRemoteRepo, retryCall, hc, hp]

theorem pushToRemoteRepo_witness :
    pushToRemoteRepo { envAllOk with commitRes := some (Err.generic "boom") }
        "clusters/management-cluster" "msg" =
      ([Event.commit "msg"],
        some (.configVCFailed
          (.errorfV "committing clusters/management-cluster to git"
            (Err.generic "boom")))) := by
  have h := (pushToRemoteRepo_commit_then_retry_push
    { envAllOk with commitRes := some (Err.generic "boom") }
    "clusters/management-cluster" "msg").1 (Err.generic "boom") rfl
  simpa using h

/-- C5: with the git-tools handle nil, every public operation returns success
with an empty collaborator trace, and `Validations` returns the empty
validation set. -/
theorem unconfigured_ops_are_noops
    (env : Env) (f : Flux) (fc : FluxForCluster) (existingManagement : Bool)
    (h : f.gitTools = none) :
    installGitOps env f existingManagement fc = ([], none)
    ∧ updateGitEksaSpec env f fc = ([], none)
    ∧ cleanupGitRepo env f fc = ([], none)
    ∧ pauseGitOpsKustomization env f fc = ([], none)
    ∧ resumeGitOpsKustomization env f fc = ([], none)
    ∧ forceReconcileGitRepo env f fc = ([], none)
    ∧ validationsFlux env f fc = ([], []) := by
  simp [installGitOps, updateGitEksaSpec, cleanupGitRepo,
    pauseGitOpsKustomization, resumeGitOpsKustomization,
    forceReconcileGitRepo, validationsFlux, h]

theorem unconfigured_ops_witness :
    installGitOps envAllOk { gitTools := none } false sampleFc = ([], none)
    ∧ updateGitEksaSpec envAllOk { gitTools := none } sampleFc = ([], none)
    ∧ cleanupGitRepo envAllOk { gitTools := none } sampleFc = ([], none)
    ∧ pauseGitOpsKustomization envAllOk { gitTools := none } sampleFc = ([], none)
    ∧ resumeGitOpsKustomization envAllOk { gitTools := none } sampleFc = ([], none)
    ∧ forceReconcileGitRepo envAllOk { gitTools := none } sampleFc = ([], none)
    ∧ validationsFlux envAllOk { gitTools := none } sampleFc = ([], []) :=
  unconfigured_ops_are_noops envAllOk { gitTools := none } sampleFc false rfl

/-- C9: `validateLocalConfigPathDoesNotExist` returns an error exactly when
the cluster is self-managed and the configured cluster-configuration path
exists on local disk; for a managed (workload) cluster it returns nil
regardless of the filesystem. -/
theorem validateLocalConfigPath_iff
    (env : Env) (gt : GitTools) (fc : FluxForCluster) :
    (validateLocalConfigPathDoesNotExist env gt fc ≠ none ↔
      fc.clusterSpec.selfManaged = true ∧
        env.fileExists (pathJoin [gt.writerDir, fc.path]) = true)
    ∧ (fc.clusterSpec.selfManaged = false →
      validateLocalConfigPathDoesNotExist env gt fc = none) := by
  constructor
  · cases hsm : fc.clusterSpec.selfManaged <;>
      cases hfe : env.fileExists (pathJoin [gt.writerDir, fc.path]) <;>
      simp [validateLocalConfigPathDoesNotExist, hsm, hfe]
  · intro hsm
    simp [validateLocalConfigPathDoesNotExist, hsm]

theorem validateLocalConfigPath_witness :
    validateLocalConfigPathDoesNotExist envAllOk sampleGt sampleFcManaged =
      none :=
  (validateLocalConfigPath_iff envAllOk sampleGt sampleFcManaged).2 rfl

/-- Helper: with validation passing and every local write, add, commit and
push succeeding, `commitFluxAndClusterConfigToGit` returns success. -/
theorem commitFlux_ok_res
    (env : Env) (gt : GitTools) (fc : FluxForCluster)
    (hv : validateLocalConfigPathDoesNotExist env gt fc = none)
    (hwd : env.withDirRes = none) (hm : env.marshalRes = none)
    (hwr : env.writeRes = none) (ha : env.addRes = none)
    (hcm : env.commitRes = none) (hp : env.pushRes = none) :
    (commitFluxAndClusterConfigToGit env gt fc).2 = none := by
  cases hdc : fc.hasDatacenterConfig <;>
    cases hmc : fc.hasMachineConfigs <;>
      cases hsm : fc.clusterSpec.selfManaged <;>
        simp [commitFluxAndClusterConfigToGit, writeEksaSystemFiles,
          writeFluxSystemFiles, pushToRemoteRepo, retryCall, hv, hwd, hm,
          hwr, ha, hcm, hp, hdc, hmc, hsm]

/-- C3: on a fresh (non-existing-management) install, whichever bootstrap
call fails after retry exhaustion — `BootstrapGithub` on the GitHub path or
`BootstrapGit` on the generic-git path — the rollback uninstall runs, with
exactly one `Uninstall` call when it succeeds, and the error returned is
always the original bootstrap error, never the uninstall error. -/
theorem installGitOps_bootstrapFail_rollback
    (env : Env) (gt : GitTools) (fc : FluxForCluster)
    (hg : env.getRepoRes = .ok (some ()))
    (hcl : env.cloneRes = none) (hb : env.branchRes = none)
    (hv : validateLocalConfigPathDoesNotExist env gt fc = none)
    (hwd : env.withDirRes = none) (hm : env.marshalRes = none)
    (hwr : env.writeRes = none) (ha : env.addRes = none)
    (hcm : env.commitRes = none) (hp : env.pushRes = none) :
    (∀ eb : Err, env.bootstrapGithubRes = some eb →
      (env.uninstallRes = none →
        (installGitOpsGithub env gt false fc).1.count Event.uninstall = 1)
      ∧ (installGitOpsGithub env gt false fc).2 = some eb)
    ∧ (∀ eb : Err, env.bootstrapGitRes = some eb →
      (env.uninstallRes = none →
        (installGitOpsGenericGit env gt false fc).1.count Event.uninstall = 1)
      ∧ (installGitOpsGenericGit env gt false fc).2 = some eb) := by
  constructor
  · intro eb hboot
    constructor
    · intro hu
      cases hdc : fc.hasDatacenterConfig <;>
        cases hmc : fc.hasMachineConfigs <;>
          cases hsm : fc.clusterSpec.selfManaged <;>
            simp [installGitOpsGithub, setupProviderRepository, retryGetRepo,
              cloneOp, retryCall, commitFluxAndClusterConfigToGit,
              writeEksaSystemFiles, writeFluxSystemFiles, pushToRemoteRepo,
              uninstallGitOpsToolkits, maxRetries, hg, hcl, hb, hv, hwd, hm,
              hwr, ha, hcm, hp, hboot, hu, hdc, hmc, hsm]
    · cases hu : env.uninstallRes <;>
        cases hdc : fc.hasDatacenterConfig <;>
          cases hmc : fc.hasMachineConfigs <;>
            cases hsm : fc.clusterSpec.selfManaged <;>
              simp [installGitOpsGithub, setupProviderRepository, retryGetRepo,
                cloneOp, retryCall, commitFluxAndClusterConfigToGit,
                writeEksaSystemFiles, writeFluxSystemFiles, pushToRemoteRepo,
                uninstallGitOpsToolkits, hg, hcl, hb, hv, hwd, hm, hwr, ha,
                hcm, hp, hboot, hu, hdc, hmc, hsm]
  · intro eb hboot
    constructor
    · intro hu
      cases hdc : fc.hasDatacenterConfig <;>
        cases hmc : fc.hasMachineConfigs <;>
          cases hsm : fc.clusterSpec.selfManaged <;>
            simp [installGitOpsGenericGit, cloneOp, retryCall,
              commitFluxAndClusterConfigToGit, writeEksaSystemFiles,
              writeFluxSystemFiles, pushToRemoteRepo,
              uninstallGitOpsToolkits, maxRetries, hcl, hb, hv, hwd, hm,
              hwr, ha, hcm, hp, hboot, hu, hdc, hmc, hsm]
    · cases hu : env.uninstallRes <;>
        cases hdc : fc.hasDatacenterConfig <;>
          cases hmc : fc.hasMachineConfigs <;>
            cases hsm : fc.clusterSpec.selfManaged <;>
              simp [installGitOpsGenericGit, cloneOp, retryCall,
                commitFluxAndClusterConfigToGit, writeEksaSystemFiles,
                writeFluxSystemFiles, pushToRemoteRepo,
                uninstallGitOpsToolkits, hcl, hb, hv, hwd, hm, hwr, ha,
                hcm, hp, hboot, hu, hdc, hmc, hsm]

/-- An environment in which both bootstrap variants fail and everything else
succeeds. -/
def envBothBootFail : Env :=
  { envAllOk with
    bootstrapGithubRes := some (Err.generic "bootfail"),
    bootstrapGitRes := some (Err.generic "gitbootfail") }

theorem installGitOps_bootstrapFail_witness :
    ((installGitOpsGithub envBothBootFail sampleGt false sampleFc).1.count
        Event.uninstall = 1
      ∧ (installGitOpsGithub envBothBootFail sampleGt false sampleFc).2 =
        some (Err.generic "bootfail"))
    ∧ ((installGitOpsGenericGit envBothBootFail sampleGt false
        sampleFc).1.count Event.uninstall = 1
      ∧ (installGitOpsGenericGit envBothBootFail sampleGt false sampleFc).2 =
        some (Err.generic "gitbootfail")) := by
  have h := installGitOps_bootstrapFail_rollback envBothBootFail sampleGt
    sampleFc rfl rfl rfl rfl rfl rfl rfl rfl rfl rfl
  exact ⟨⟨(h.1 _ rfl).1 rfl, (h.1 _ rfl).2⟩,
    ⟨(h.2 _ rfl).1 rfl, (h.2 _ rfl).2⟩⟩

/-- C6: with manifest generation succeeding, the install-time commit writes
the cluster config manifest and its kustomization under
basePath/clusterName/eksa-system for every cluster, and only a self-managed
cluster additionally writes the toolkit kustomization, sync, and patch
manifests under basePath/namespace. -/
theorem commitFlux_manifest_layout
    (env : Env) (gt : GitTools) (fc : FluxForCluster)
    (hv : validateLocalConfigPathDoesNotExist env gt fc = none)
    (hwd : env.withDirRes = none) (hm : env.marshalRes = none)
    (hwr : env.writeRes = none) (hd : fc.hasDatacenterConfig = true)
    (ha : env.addRes = none) (hcm : env.commitRes = none)
    (hp : env.pushRes = none) :
    (commitFluxAndClusterConfigToGit env gt fc).1.filter Event.isWrite =
      [Event.writeFile
          (pathJoin [fc.path, fc.clusterSpec.clusterName, eksaSystemDirName])
          clusterConfigFileName,
        Event.writeFile
          (pathJoin [fc.path, fc.clusterSpec.clusterName, eksaSystemDirName])
          kustomizeFileName]
      ++ (if fc.clusterSpec.selfManaged then
            [Event.writeFile (pathJoin [fc.path, fc.namespaceName])
              kustomizeFileName,
              Event.writeFile (pathJoin [fc.path, fc.namespaceName])
                fluxSyncFileName,
              Event.writeFile (pathJoin [fc.path, fc.namespaceName])
                fluxPatchFileName]
          else []) := by
  cases hsm : fc.clusterSpec.selfManaged <;>
    simp [commitFluxAndClusterConfigToGit, writeEksaSystemFiles,
      writeFluxSystemFiles, pushToRemoteRepo, retryCall,
      FluxForCluster.eksaSystemDir, FluxForCluster.fluxSystemDir,
      Event.isWrite, hv, hwd, hm, hwr, hd, ha, hcm, hp, hsm]

theorem commitFlux_manifest_witness :
    (commitFluxAndClusterConfigToGit envAllOk sampleGt sampleFc).1.filter
        Event.isWrite =
      [Event.writeFile "clusters/management-cluster/management-cluster/eksa-system"
          "eksa-cluster.yaml",
        Event.writeFile "clusters/management-cluster/management-cluster/eksa-system"
          "kustomization.yaml",
        Event.writeFile "clusters/management-cluster/flux-system"
          "kustomization.yaml",
        Event.writeFile "clusters/management-cluster/flux-system"
          "gotk-sync.yaml",
        Event.writeFile "clusters/management-cluster/flux-system"
          "gotk-patches.yaml"] := by
  have h := commitFlux_manifest_layout envAllOk sampleGt sampleFc
    rfl rfl rfl rfl rfl rfl rfl rfl
  exact h.trans (by decide)

/-- C7: on a configured cleanup whose local sync succeeds, the removal path is
the eksa-system subdirectory for a workload cluster and the whole base
configuration path for a self-managed one; when that path is locally absent,
cleanup succeeds with no Remove, Commit or Push call, and when it is present
the removal is staged and committed and pushed with the fixed delete
message. -/
theorem cleanupGitRepo_paths_and_skip
    (env : Env) (f : Flux) (gt : GitTools) (fc : FluxForCluster)
    (hgt : f.gitTools = some gt)
    (hgit : env.fileExists (pathJoin [gt.writerDir, ".git"]) = true)
    (hb : env.branchRes = none) :
    (env.fileExists (pathJoin [gt.writerDir,
        if fc.clusterSpec.selfManaged then fc.path
        else pathJoin [fc.path, fc.clusterSpec.clusterName, eksaSystemDirName]])
          = false →
      cleanupGitRepo env f fc = ([Event.branch fc.branch], none))
    ∧ (env.fileExists (pathJoin [gt.writerDir,
        if fc.clusterSpec.selfManaged then fc.path
        else pathJoin [fc.path, fc.clusterSpec.clusterName, eksaSystemDirName]])
          = true →
      env.removeRes = none → env.commitRes = none → env.pushRes = none →
      cleanupGitRepo env f fc =
        ([Event.branch fc.branch,
          Event.remove (if fc.clusterSpec.selfManaged then fc.path
            else pathJoin [fc.path, fc.clusterSpec.clusterName,
              eksaSystemDirName]),
          Event.commit deleteClusterconfigCommitMessage, Event.push],
          none)) := by
  constructor
  · intro habs
    cases hsm : fc.clusterSpec.selfManaged <;>
      (rw [hsm] at habs; try simp at habs) <;>
      simp [cleanupGitRepo, syncGitRepo, FluxForCluster.eksaSystemDir,
        hgt, hgit, hb, hsm, habs]
  · intro hpres hrm hcm hp
    cases hsm : fc.clusterSpec.selfManaged <;>
      (rw [hsm] at hpres; try simp at hpres) <;>
      simp [cleanupGitRepo, syncGitRepo, pushToRemoteRepo, retryCall,
        FluxForCluster.eksaSystemDir, hgt, hgit, hb, hsm, hpres, hrm,
        hcm, hp]

theorem cleanupGitRepo_workload_absent_witness :
    cleanupGitRepo
      { envAllOk with fileExists := fun s => s == "repo/.git" }
      { gitTools := some sampleGt } sampleFcManaged =
      ([Event.branch "testBranch"], none) := by
  have h := (cleanupGitRepo_paths_and_skip
    { envAllOk with fileExists := fun s => s == "repo/.git" }
    { gitTools := some sampleGt } sampleGt sampleFcManaged
    rfl (by decide) rfl).1 (by decide)
  exact h.trans (by decide)

/-- C8: on a configured GitHub install whose provider path succeeds —
whether or not bootstrap was skipped for an existing management cluster —
InstallGitOps attempts the retried Pull on the configured branch and returns
nil even when the pull fails. -/
theorem installGitOps_pull_advisory
    (env : Env) (f : Flux) (gt : GitTools) (fc : FluxForCluster)
    (g : GithubProviderConfig) (existingManagement : Bool)
    (hgt : f.gitTools = some gt)
    (hGh : fc.clusterSpec.fluxConfig.Github = some g)
    (hGit : fc.clusterSpec.fluxConfig.Git = none)
    (hg : env.getRepoRes = .ok (some ()))
    (hcl : env.cloneRes = none) (hb : env.branchRes = none)
    (hv : validateLocalConfigPathDoesNotExist env gt fc = none)
    (hwd : env.withDirRes = none) (hm : env.marshalRes = none)
    (hwr : env.writeRes = none) (ha : env.addRes = none)
    (hcm : env.commitRes = none) (hp : env.pushRes = none)
    (hboot : env.bootstrapGithubRes = none) :
    (installGitOps env f existingManagement fc).2 = none
    ∧ 1 ≤ (installGitOps env f existingManagement fc).1.count
        (Event.pull fc.branch) := by
  have hGhOk : (installGitOpsGithub env gt existingManagement fc).2 = none := by
    have hcf := commitFlux_ok_res env gt fc hv hwd hm hwr ha hcm hp
    cases existingManagement <;>
      simp [installGitOpsGithub, setupProviderRepository, retryGetRepo,
        cloneOp, retryCall, hg, hcl, hb, hcf, hboot]
  have hmain : installGitOps env f existingManagement fc =
      ((installGitOpsGithub env gt existingManagement fc).1 ++
        (retryCall (Event.pull fc.branch) env.pullRes).1, none) := by
    simp [installGitOps, hgt, hGh, hGit, hGhOk]
  have hp1 : 1 ≤ ((retryCall (Event.pull fc.branch) env.pullRes).1.count
      (Event.pull fc.branch)) := by
    cases env.pullRes <;> simp [retryCall, maxRetries]
  refine ⟨by rw [hmain], ?_⟩
  rw [hmain]
  simp only [List.count_append]
  exact le_trans hp1 (Nat.le_add_left _ _)

theorem installGitOps_pull_advisory_witness :
    (installGitOps { envAllOk with pullRes := some (Err.generic "pullfail") }
      { gitTools := some sampleGt } true sampleFc).2 = none
    ∧ 1 ≤ (installGitOps
        { envAllOk with pullRes := some (Err.generic "pullfail") }
        { gitTools := some sampleGt } true sampleFc).1.count
          (Event.pull sampleFc.branch) :=
  installGitOps_pull_advisory
    { envAllOk with pullRes := some (Err.generic "pullfail") }
    { gitTools := some sampleGt } sampleGt sampleFc sampleGithub true
    rfl rfl rfl rfl rfl rfl rfl rfl rfl rfl rfl rfl rfl rfl

/-- C10: when the flux configuration carries both a Github and a Git section
and both install paths succeed, InstallGitOps runs the GitHub path first and
the generic-git path second — two sequential independent conditionals — then
the advisory pull. -/
theorem installGitOps_runs_both_paths
    (env : Env) (f : Flux) (gt : GitTools) (fc : FluxForCluster)
    (g : GithubProviderConfig) (gg : GitProviderConfig)
    (existingManagement : Bool)
    (hgt : f.gitTools = some gt)
    (hGh : fc.clusterSpec.fluxConfig.Github = some g)
    (hGit : fc.clusterSpec.fluxConfig.Git = some gg)
    (h1 : (installGitOpsGithub env gt existingManagement fc).2 = none)
    (h2 : (installGitOpsGenericGit env gt existingManagement fc).2 = none) :
    installGitOps env f existingManagement fc =
      ((installGitOpsGithub env gt existingManagement fc).1 ++
        (installGitOpsGenericGit env gt existingManagement fc).1 ++
        (retryCall (Event.pull fc.branch) env.pullRes).1, none) := by
  simp [installGitOps, hgt, hGh, hGit, h1, h2]

def sampleSpecBoth : ClusterSpecT :=
  { sampleSpec with
    fluxConfig := { sampleSpec.fluxConfig with
      Git := some { RepositoryUrl := "ssh://git@host/repo/fluxy.git" } } }

def sampleFcBoth : FluxForCluster :=
  { sampleFc with clusterSpec := sampleSpecBoth }

theorem installGitOps_runs_both_paths_witness :
    installGitOps envAllOk { gitTools := some sampleGt } false sampleFcBoth =
      ((installGitOpsGithub envAllOk sampleGt false sampleFcBoth).1 ++
        (installGitOpsGenericGit envAllOk sampleGt false sampleFcBoth).1 ++
        (retryCall (Event.pull sampleFcBoth.branch) envAllOk.pullRes).1,
        none) :=
  installGitOps_runs_both_paths envAllOk { gitTools := some sampleGt }
    sampleGt sampleFcBoth sampleGithub
    { RepositoryUrl := "ssh://git@host/repo/fluxy.git" } false
    rfl rfl rfl (by decide) (by decide)

end EksaFlux
